import Mathlib

/-!
Verification development for the crypto_proxy market-data proxy.

The definitions below are a shallow embedding of the Rust sources:
  src/mkt_msg.rs        (message structures and their byte encodings)
  src/parser/binance_parser.rs (trade / depth / snapshot / kline parsers)
  src/rest_fetcher.rs   (premium-index matching, per-tick frame emission)
  src/connection/connection.rs (WebSocket connect retry loop)

Modelling conventions:
  - JSON payloads are an inductive `Json` mirroring serde_json values;
    numbers are rationals (exact), since no claim depends on IEEE-754
    rounding.  `f64` values are modelled as `Rat`.
  - Rust `.parse::<f64>()` is modelled by `parse_f64` over the plain
    decimal grammar (optional sign, digits, optional fraction); the
    exponent / infinity / nan forms of the Rust grammar are not modelled.
  - Broadcast `sender.send` fails only when no receiver exists; here every
    send succeeds, and a parser returns the list of frames it emitted (the
    Rust emitted-count equals the list length).
  - Symbols are ASCII, so `String.len` (bytes) is the character count and
    UTF-8 bytes are the code points.
-/

/-- JSON value model mirroring serde_json::Value. -/
inductive Json where
  | null : Json
  | jbool : Bool → Json
  | jnum : Rat → Json
  | jstr : String → Json
  | jarr : List Json → Json
  | jobj : List (String × Json) → Json
  deriving Repr

/-- Object field access, as `json_value.get(key)` in the source. -/
def Json.get : Json → String → Option Json
  | .jobj fields, key => fields.lookup key
  | _, _ => none

/-- Mirrors serde_json `as_str`. -/
def Json.as_str : Json → Option String
  | .jstr s => some s
  | _ => none

/-- Mirrors serde_json `as_i64`: integral numbers inside the i64 range. -/
def Json.as_i64 : Json → Option Int
  | .jnum q => if q.den = 1 ∧ -(2 ^ 63) ≤ q.num ∧ q.num < 2 ^ 63 then some q.num else none
  | _ => none

/-- Mirrors serde_json `as_f64` (numeric values; exact rationals here). -/
def Json.as_f64 : Json → Option Rat
  | .jnum q => some q
  | _ => none

/-- Mirrors serde_json `as_bool`. -/
def Json.as_bool : Json → Option Bool
  | .jbool b => some b
  | _ => none

/-- Mirrors serde_json `as_array`. -/
def Json.as_array : Json → Option (List Json)
  | .jarr xs => some xs
  | _ => none

/-- Value of a digit string, most significant first. -/
def digitsVal (cs : List Char) : Nat :=
  cs.foldl (fun a c => a * 10 + (c.toNat - 48)) 0

/-- True when every character is a decimal digit. -/
def isDigits (cs : List Char) : Bool :=
  cs.all (fun c => c.isDigit)

/-- Unsigned part of the Rust f64 grammar: `digits`, `digits.digits?`, or
`.digits` (at least one digit overall); the value is the numerator over the
power-of-ten denominator of the fractional part. -/
def parseMantissa (cs : List Char) : Option Rat :=
  let intPart := cs.takeWhile (fun c => c ≠ '.')
  match cs.dropWhile (fun c => c ≠ '.') with
  | [] =>
    if intPart ≠ [] ∧ isDigits intPart then some (mkRat (digitsVal intPart) 1) else none
  | _ :: fracPart =>
    if (intPart ≠ [] ∨ fracPart ≠ []) ∧ isDigits intPart ∧ isDigits fracPart then
      some (mkRat (digitsVal intPart * 10 ^ fracPart.length + digitsVal fracPart)
        (10 ^ fracPart.length))
    else none

/-- Model of Rust `str::parse::<f64>()` on the plain decimal subset. -/
def parse_f64 (s : String) : Option Rat :=
  match s.toList with
  | '-' :: rest => (parseMantissa rest).map (fun q => mkRat (-q.num) q.den)
  | '+' :: rest => parseMantissa rest
  | cs => parseMantissa cs

/-- Digits of an integer literal (nonempty, all digits). -/
def parseIntDigits (cs : List Char) : Option Nat :=
  if cs ≠ [] ∧ isDigits cs then some (digitsVal cs) else none

/-- Model of Rust `str::parse::<i64>()` (with the i64 range check). -/
def parse_i64_str (s : String) : Option Int :=
  match s.toList with
  | '-' :: rest => (parseIntDigits rest).bind
      (fun n => if (n : Int) ≤ 2 ^ 63 then some (-(n : Int)) else none)
  | '+' :: rest => (parseIntDigits rest).bind
      (fun n => if (n : Int) < 2 ^ 63 then some (n : Int) else none)
  | cs => (parseIntDigits cs).bind
      (fun n => if (n : Int) < 2 ^ 63 then some (n : Int) else none)

/-- Order-book level, from mkt_msg.rs. -/
structure Level where
  price : Rat
  amount : Rat
  deriving DecidableEq, Repr

/-- Level::new — an unparseable price or amount string becomes 0.0. -/
def Level.new (price_str amount_str : String) : Level :=
  { price := (parse_f64 price_str).getD 0, amount := (parse_f64 amount_str).getD 0 }

/-- TradeMsg (msg_type TradeInfo = 1001 is fixed by TradeMsg::create). -/
structure TradeMsg where
  symbol : String
  id : Int
  timestamp : Int
  side : Char
  price : Rat
  amount : Rat
  deriving DecidableEq, Repr

/-- TradeMsg::create. -/
def TradeMsg.create (symbol : String) (id timestamp : Int) (side : Char)
    (price amount : Rat) : TradeMsg :=
  { symbol := symbol, id := id, timestamp := timestamp, side := side,
    price := price, amount := amount }

/-- IncMsg (msg_type OrderBookInc = 1005 fixed by IncMsg::create). -/
structure IncMsg where
  symbol : String
  first_update_id : Int
  final_update_id : Int
  timestamp : Int
  is_snapshot : Bool
  bids_count : Nat
  asks_count : Nat
  levels : List Level
  deriving DecidableEq, Repr

/-- IncMsg::create — levels prefilled with (0.0, 0.0). -/
def IncMsg.create (symbol : String) (first_update_id final_update_id timestamp : Int)
    (is_snapshot : Bool) (bids_count asks_count : Nat) : IncMsg :=
  { symbol := symbol, first_update_id := first_update_id,
    final_update_id := final_update_id, timestamp := timestamp,
    is_snapshot := is_snapshot, bids_count := bids_count, asks_count := asks_count,
    levels := List.replicate (bids_count + asks_count) { price := 0, amount := 0 } }

/-- IncMsg::set_bid_level. -/
def IncMsg.set_bid_level (m : IncMsg) (index : Nat) (level : Level) : IncMsg :=
  if index < m.bids_count ∧ index < m.levels.length then
    { m with levels := m.levels.set index level }
  else m

/-- IncMsg::set_ask_level (asks start after the bids). -/
def IncMsg.set_ask_level (m : IncMsg) (index : Nat) (level : Level) : IncMsg :=
  if index < m.asks_count ∧ m.bids_count + index < m.levels.length then
    { m with levels := m.levels.set (m.bids_count + index) level }
  else m

/-- BinanceIncSeqNoMsg (msg_type 1016 fixed by its create). -/
structure BinanceIncSeqNoMsg where
  symbol : String
  pu : Int
  u : Int
  u_upper : Int
  timestamp : Int
  deriving DecidableEq, Repr

/-- BinanceIncSeqNoMsg::create. -/
def BinanceIncSeqNoMsg.create (symbol : String) (pu u u_upper timestamp : Int) :
    BinanceIncSeqNoMsg :=
  { symbol := symbol, pu := pu, u := u, u_upper := u_upper, timestamp := timestamp }

/-- KlineMsg (msg_type Kline = 1010 fixed by KlineMsg::create). -/
structure KlineMsg where
  symbol : String
  open_price : Rat
  high_price : Rat
  low_price : Rat
  close_price : Rat
  volume : Rat
  turnover : Rat
  timestamp : Int
  trade_num : Int
  taker_buy_vol : Rat
  taker_buy_quote_vol : Rat
  deriving DecidableEq, Repr

/-- KlineMsg::create — the Binance-specific fields default to zero. -/
def KlineMsg.create (symbol : String) (open_price high_price low_price close_price
    volume turnover : Rat) (timestamp : Int) : KlineMsg :=
  { symbol := symbol, open_price := open_price, high_price := high_price,
    low_price := low_price, close_price := close_price, volume := volume,
    turnover := turnover, timestamp := timestamp,
    trade_num := 0, taker_buy_vol := 0, taker_buy_quote_vol := 0 }

/-- KlineMsg::set_binance_fields. -/
def KlineMsg.set_binance_fields (m : KlineMsg) (trade_num : Int)
    (taker_buy_vol taker_buy_quote_vol : Rat) : KlineMsg :=
  { m with trade_num := trade_num, taker_buy_vol := taker_buy_vol,
           taker_buy_quote_vol := taker_buy_quote_vol }

/-- PremiumIndexKlineMsg (msg_type 1015 fixed by its create). -/
structure PremiumIndexKlineMsg where
  symbol : String
  open_price : Rat
  high_price : Rat
  low_price : Rat
  close_price : Rat
  timestamp : Int
  open_interest : Rat
  transaction_time : Int
  deriving DecidableEq, Repr

/-- PremiumIndexKlineMsg::create — open interest fields default to zero. -/
def PremiumIndexKlineMsg.create (symbol : String)
    (open_price high_price low_price close_price : Rat) (timestamp : Int) :
    PremiumIndexKlineMsg :=
  { symbol := symbol, open_price := open_price, high_price := high_price,
    low_price := low_price, close_price := close_price, timestamp := timestamp,
    open_interest := 0, transaction_time := 0 }

/-- PremiumIndexKlineMsg::set_open_interest. -/
def PremiumIndexKlineMsg.set_open_interest (m : PremiumIndexKlineMsg)
    (open_interest : Rat) (time : Int) : PremiumIndexKlineMsg :=
  { m with open_interest := open_interest, transaction_time := time }

/-- TopLongShortRatioMsg (msg_type 1017 fixed by its create). -/
structure TopLongShortRatioMsg where
  symbol : String
  timestamp : Int
  top_account_long : Rat
  top_account_short : Rat
  top_account_ratio : Rat
  top_position_long : Rat
  top_position_short : Rat
  top_position_ratio : Rat
  global_account_long : Rat
  global_account_short : Rat
  global_account_ratio : Rat
  top_account_timestamp : Int
  top_position_timestamp : Int
  global_account_timestamp : Int
  sum_open_interest : Rat
  sum_open_interest_value : Rat
  cmc_circulating_supply : Rat
  open_interest_hist_timestamp : Int
  deriving DecidableEq, Repr

/-- TopLongShortRatioMsg::create — the open-interest-hist fields default to zero. -/
def TopLongShortRatioMsg.create (symbol : String) (timestamp : Int)
    (top_account_long top_account_short top_account_ratio
     top_position_long top_position_short top_position_ratio
     global_account_long global_account_short global_account_ratio : Rat)
    (top_account_timestamp top_position_timestamp global_account_timestamp : Int) :
    TopLongShortRatioMsg :=
  { symbol := symbol, timestamp := timestamp,
    top_account_long := top_account_long, top_account_short := top_account_short,
    top_account_ratio := top_account_ratio,
    top_position_long := top_position_long, top_position_short := top_position_short,
    top_position_ratio := top_position_ratio,
    global_account_long := global_account_long,
    global_account_short := global_account_short,
    global_account_ratio := global_account_ratio,
    top_account_timestamp := top_account_timestamp,
    top_position_timestamp := top_position_timestamp,
    global_account_timestamp := global_account_timestamp,
    sum_open_interest := 0, sum_open_interest_value := 0,
    cmc_circulating_supply := 0, open_interest_hist_timestamp := 0 }

/-- TopLongShortRatioMsg::set_open_interest_hist. -/
def TopLongShortRatioMsg.set_open_interest_hist (m : TopLongShortRatioMsg)
    (sum_open_interest sum_open_interest_value cmc_circulating_supply : Rat)
    (timestamp : Int) : TopLongShortRatioMsg :=
  { m with sum_open_interest := sum_open_interest,
           sum_open_interest_value := sum_open_interest_value,
           cmc_circulating_supply := cmc_circulating_supply,
           open_interest_hist_timestamp := timestamp }

/-- Modelled from the spec: BarClose1mMsg (the struct is imported by
rest_fetcher.rs from crate::mkt_msg but absent from the provided sources);
per the spec it carries the tick close_time. -/
structure BarClose1mMsg where
  close_time : Int
  deriving DecidableEq, Repr

/-- The family of normalized frames a producer can publish on the bus.
`binanceMktStatus` is modelled from the spec (struct absent from the
provided sources); its payload is abstracted to (period, info_count). -/
inductive Frame where
  | trade (m : TradeMsg)
  | orderBookInc (m : IncMsg)
  | binanceIncSeqNo (m : BinanceIncSeqNoMsg)
  | kline (m : KlineMsg)
  | premiumIndexKline (m : PremiumIndexKlineMsg)
  | topLongShortFrame (m : TopLongShortRatioMsg)
  | barClose1m (m : BarClose1mMsg)
  | binanceMktStatus (period : Int) (info_count : Int)
  deriving DecidableEq, Repr

/-- One step of the bids loop in parse_order_book_levels: a bid entry is
applied only when it is an array of length ≥ 2 whose first two entries are
strings. -/
def applyBidItem (m : IncMsg) (p : Nat × Json) : IncMsg :=
  match p.2.as_array with
  | some bid_array =>
    if bid_array.length ≥ 2 then
      match (bid_array.get? 0).bind Json.as_str, (bid_array.get? 1).bind Json.as_str with
      | some price_str, some amount_str =>
        m.set_bid_level p.1 (Level.new price_str amount_str)
      | _, _ => m
    else m
  | none => m

/-- One step of the asks loop in parse_order_book_levels. -/
def applyAskItem (m : IncMsg) (p : Nat × Json) : IncMsg :=
  match p.2.as_array with
  | some ask_array =>
    if ask_array.length ≥ 2 then
      match (ask_array.get? 0).bind Json.as_str, (ask_array.get? 1).bind Json.as_str with
      | some price_str, some amount_str =>
        m.set_ask_level p.1 (Level.new price_str amount_str)
      | _, _ => m
    else m
  | none => m

/-- parse_order_book_levels: enumerate the bids then the asks, writing each
well-formed entry into the level slots of the message. -/
def parse_order_book_levels (bids_array asks_array : List Json) (inc_msg : IncMsg) :
    IncMsg :=
  (asks_array.enum).foldl applyAskItem ((bids_array.enum).foldl applyBidItem inc_msg)

/-- Field extraction of BinanceIncParser::parse_inc_event: the six required
fields (symbol, U, u, timestamp from T-else-E, bids, asks). -/
def inc_fields (j : Json) : Option (String × Int × Int × Int × List Json × List Json) :=
  let timestamp_field := if (j.get "T").isSome then "T" else "E"
  match (j.get "s").bind Json.as_str, (j.get "U").bind Json.as_i64,
        (j.get "u").bind Json.as_i64, (j.get timestamp_field).bind Json.as_i64,
        (j.get "b").bind Json.as_array, (j.get "a").bind Json.as_array with
  | some symbol, some first_update_id, some final_update_id, some timestamp,
    some bids_array, some asks_array =>
      some (symbol, first_update_id, final_update_id, timestamp, bids_array, asks_array)
  | _, _, _, _, _, _ => none

/-- The pu extraction of parse_inc_event: mandatory for futures, constant 0
for spot. -/
def inc_pu (is_futures : Bool) (j : Json) : Option Int :=
  if is_futures then (j.get "pu").bind Json.as_i64 else some 0

/-- BinanceIncParser::parse_inc_event.  On success it sends a
BinanceIncSeqNoMsg and then the IncMsg; a futures payload without pu
emits nothing. -/
def BinanceIncParser.parse_inc_event (is_futures : Bool) (j : Json) : List Frame :=
  match inc_fields j with
  | none => []
  | some (symbol, first_update_id, final_update_id, timestamp, bids_array, asks_array) =>
    match inc_pu is_futures j with
    | none => []
    | some prev_update_id =>
      let seq_msg := BinanceIncSeqNoMsg.create symbol prev_update_id final_update_id
        first_update_id timestamp
      let inc_msg := IncMsg.create symbol first_update_id final_update_id timestamp
        false bids_array.length asks_array.length
      let inc_msg := parse_order_book_levels bids_array asks_array inc_msg
      [Frame.binanceIncSeqNo seq_msg, Frame.orderBookInc inc_msg]

/-- BinanceIncParser::parse: gate on event type "depthUpdate". -/
def BinanceIncParser.parse (is_futures : Bool) (j : Json) : List Frame :=
  match (j.get "e").bind Json.as_str with
  | some event_type =>
    if event_type = "depthUpdate" then BinanceIncParser.parse_inc_event is_futures j
    else []
  | none => []

/-- BinanceSnapshotParser::parse_snapshot_event. -/
def BinanceSnapshotParser.parse_snapshot_event (j : Json) : List Frame :=
  match (j.get "s").bind Json.as_str, (j.get "lastUpdateId").bind Json.as_i64,
        (j.get "bids").bind Json.as_array, (j.get "asks").bind Json.as_array with
  | some symbol, some last_update_id, some bids_array, some asks_array =>
    let inc_msg := IncMsg.create symbol (last_update_id + 1) (last_update_id + 1) 0
      true bids_array.length asks_array.length
    let inc_msg := parse_order_book_levels bids_array asks_array inc_msg
    [Frame.orderBookInc inc_msg]
  | _, _, _, _ => []

/-- BinanceSnapshotParser::parse forwards every JSON document to
parse_snapshot_event. -/
def BinanceSnapshotParser.parse (j : Json) : List Frame :=
  BinanceSnapshotParser.parse_snapshot_event j

/-- Field extraction of BinanceTradeParser::parse_trade_event:
(s, t, p, q, T, m). -/
def trade_fields (j : Json) : Option (String × Int × String × String × Int × Bool) :=
  match (j.get "s").bind Json.as_str, (j.get "t").bind Json.as_i64,
        (j.get "p").bind Json.as_str, (j.get "q").bind Json.as_str,
        (j.get "T").bind Json.as_i64, (j.get "m").bind Json.as_bool with
  | some symbol, some trade_id, some price_str, some qty_str, some trade_time,
    some is_maker => some (symbol, trade_id, price_str, qty_str, trade_time, is_maker)
  | _, _, _, _, _, _ => none

/-- BinanceTradeParser::parse_trade_event: rows with price ≤ 0 or
quantity ≤ 0 are dropped; buyer-is-maker trades are marked 'S', the rest 'B'. -/
def BinanceTradeParser.parse_trade_event (j : Json) : List Frame :=
  match trade_fields j with
  | none => []
  | some (symbol, trade_id, price_str, qty_str, trade_time, is_maker) =>
    match parse_f64 price_str, parse_f64 qty_str with
    | some price, some amount =>
      if price ≤ 0 ∨ amount ≤ 0 then []
      else
        let side := if is_maker then 'S' else 'B'
        [Frame.trade (TradeMsg.create symbol trade_id trade_time side price amount)]
    | _, _ => []

/-- BinanceTradeParser::parse: gate on event type "trade". -/
def BinanceTradeParser.parse (j : Json) : List Frame :=
  match (j.get "e").bind Json.as_str with
  | some event_type =>
    if event_type = "trade" then BinanceTradeParser.parse_trade_event j else []
  | none => []

/-- Field extraction of the kline object: o/h/l/c/v/q as strings, t/n as
integers, V/Q as strings. -/
def kline_fields (kline_obj : Json) :
    Option (String × String × String × String × String × String × Int × Int ×
      String × String) :=
  match (kline_obj.get "o").bind Json.as_str, (kline_obj.get "h").bind Json.as_str,
        (kline_obj.get "l").bind Json.as_str, (kline_obj.get "c").bind Json.as_str,
        (kline_obj.get "v").bind Json.as_str, (kline_obj.get "q").bind Json.as_str,
        (kline_obj.get "t").bind Json.as_i64, (kline_obj.get "n").bind Json.as_i64,
        (kline_obj.get "V").bind Json.as_str, (kline_obj.get "Q").bind Json.as_str with
  | some o, some h, some l, some c, some v, some q, some t, some n, some vv, some qq =>
    some (o, h, l, c, v, q, t, n, vv, qq)
  | _, _, _, _, _, _, _, _, _, _ => none

/-- BinanceKlineParser::parse.  The x flag gates emission: a missing or
false x returns before any field is read.  The futures-only REST fan-out
spawned before the send is asynchronous and publishes no frame from this
call, so the synchronous emission is the same for both configurations. -/
def BinanceKlineParser.parse (j : Json) : List Frame :=
  match (j.get "s").bind Json.as_str with
  | none => []
  | some symbol =>
    match j.get "k" with
    | none => []
    | some kline_obj =>
      match (kline_obj.get "x").bind Json.as_bool with
      | none => []
      | some is_closed =>
        if !is_closed then []
        else
          match kline_fields kline_obj with
          | none => []
          | some (open_str, high_str, low_str, close_str, volume_str, turnover_str,
                  timestamp, trade_num, taker_buy_vol_str, taker_buy_quote_vol_str) =>
            match parse_f64 open_str, parse_f64 high_str, parse_f64 low_str,
                  parse_f64 close_str, parse_f64 volume_str, parse_f64 turnover_str,
                  parse_f64 taker_buy_vol_str, parse_f64 taker_buy_quote_vol_str with
            | some op, some hi, some lo, some cl, some volume, some turnover,
              some taker_buy_vol, some taker_buy_quote_vol =>
              let kline_msg := KlineMsg.create symbol op hi lo cl volume turnover timestamp
              let kline_msg := kline_msg.set_binance_fields trade_num taker_buy_vol
                taker_buy_quote_vol
              [Frame.kline kline_msg]
            | _, _, _, _, _, _, _, _ => []

/-- Little-endian bytes of a u32 (put_u32_le). -/
def u32_le (n : Nat) : List Nat :=
  [n % 256, n / 256 % 256, n / 256 ^ 2 % 256, n / 256 ^ 3 % 256]

/-- Little-endian bytes of an i64 (put_i64_le, two's complement). -/
def i64_le (n : Int) : List Nat :=
  let u : Nat := (n % (2 ^ 64)).toNat
  [u % 256, u / 256 % 256, u / 256 ^ 2 % 256, u / 256 ^ 3 % 256,
   u / 256 ^ 4 % 256, u / 256 ^ 5 % 256, u / 256 ^ 6 % 256, u / 256 ^ 7 % 256]

/-- Little-endian bytes of an f64 write (put_f64_le).  The IEEE-754 bit
pattern is out of scope (floating point); only the 8-byte width of the
write is modelled, which is all any claim inspects. -/
def f64_le (_ : Rat) : List Nat :=
  List.replicate 8 0

/-- UTF-8 bytes of an (ASCII) symbol string. -/
def str_bytes (s : String) : List Nat :=
  s.toList.map Char.toNat

/-- TradeMsg::to_bytes: type 1001, length-prefixed symbol, id, timestamp,
side byte plus 7 bytes padding, price, amount. -/
def TradeMsg.to_bytes (m : TradeMsg) : List Nat :=
  u32_le 1001 ++ u32_le (str_bytes m.symbol).length ++ str_bytes m.symbol ++
    i64_le m.id ++ i64_le m.timestamp ++ [m.side.toNat % 256] ++
    List.replicate 7 0 ++ f64_le m.price ++ f64_le m.amount

/-- IncMsg::to_bytes: type 1005, length-prefixed symbol, update ids,
timestamp, is_snapshot byte plus 7 bytes padding, the two counts, and
16 bytes per level. -/
def IncMsg.to_bytes (m : IncMsg) : List Nat :=
  u32_le 1005 ++ u32_le (str_bytes m.symbol).length ++ str_bytes m.symbol ++
    i64_le m.first_update_id ++ i64_le m.final_update_id ++ i64_le m.timestamp ++
    [if m.is_snapshot then 1 else 0] ++ List.replicate 7 0 ++
    u32_le m.bids_count ++ u32_le m.asks_count ++
    (m.levels.flatMap (fun level => f64_le level.price ++ f64_le level.amount))

/-- BinanceIncSeqNoMsg::to_bytes: type 1016, length-prefixed symbol,
pu, u, u_upper, timestamp. -/
def BinanceIncSeqNoMsg.to_bytes (m : BinanceIncSeqNoMsg) : List Nat :=
  u32_le 1016 ++ u32_le (str_bytes m.symbol).length ++ str_bytes m.symbol ++
    i64_le m.pu ++ i64_le m.u ++ i64_le m.u_upper ++ i64_le m.timestamp

/-- FetchError from rest_fetcher.rs. -/
inductive FetchError where
  | Request (err : String)
  | Http (code : Nat)
  | Json (err : String)
  | EmptyResponse
  | MatchFailure
  | MissingField (field : String)
  | Timeout
  deriving DecidableEq, Repr

/-- PremiumIndexData from rest_fetcher.rs. -/
structure PremiumIndexData where
  symbol : String
  open_time : Int
  open_price : Rat
  high_price : Rat
  low_price : Rat
  close_price : Rat
  deriving DecidableEq, Repr

/-- The parse_i64 closure of fetch_premium_index: the record entry at idx,
taken as an i64 or else parsed from a string. -/
def record_i64 (record : List Json) (idx : Nat) : Option Int :=
  (record.get? idx).bind (fun v =>
    match v.as_i64 with
    | some n => some n
    | none => v.as_str.bind parse_i64_str)

/-- The parse_f64 closure of fetch_premium_index. -/
def record_f64 (record : List Json) (idx : Nat) : Option Rat :=
  (record.get? idx).bind (fun v =>
    match v.as_f64 with
    | some x => some x
    | none => v.as_str.bind parse_f64)

/-- A parsed premium-index record (open_time, o, h, l, c). -/
structure PremRecord where
  open_time : Int
  o : Rat
  h : Rat
  l : Rat
  c : Rat
  deriving DecidableEq, Repr

/-- The parse_record closure of fetch_premium_index: indices 0-4 of the
raw kline record. -/
def parse_record (record : List Json) : Option PremRecord :=
  match record_i64 record 0, record_f64 record 1, record_f64 record 2,
        record_f64 record 3, record_f64 record 4 with
  | some t, some o, some h, some l, some c =>
    some { open_time := t, o := o, h := h, l := l, c := c }
  | _, _, _, _, _ => none

/-- Result of the premium-index selection, with the warning flag of the
timestamp-mismatch log. -/
structure PremiumSelect where
  data : PremiumIndexData
  warned : Bool
  deriving DecidableEq, Repr

/-- Selection logic of fetch_premium_index after the HTTP/JSON stage:
expected open_time is close_time − 60000; with two parsed records the
second is preferred on exact match, then the first; on mismatch the
function warns and keeps the FIRST record (records[0]). -/
def fetch_premium_index (symbol : String) (close_time : Int)
    (records : List (List Json)) : Except FetchError PremiumSelect :=
  match records with
  | [] => .error .EmptyResponse
  | r0 :: rest =>
    let expected_open_time := close_time - 60000
    match parse_record r0 with
    | none => .error (.MissingField "record")
    | some primary =>
      let secondary := (rest.get? 0).bind parse_record
      let sel : PremRecord × Bool :=
        match secondary with
        | some sec =>
          if sec.open_time = expected_open_time then (sec, false)
          else if primary.open_time = expected_open_time then (primary, false)
          else (primary, true)
        | none =>
          if primary.open_time = expected_open_time then (primary, false)
          else (primary, true)
      .ok { data := { symbol := symbol, open_time := sel.1.open_time,
                      open_price := sel.1.o, high_price := sel.1.h,
                      low_price := sel.1.l, close_price := sel.1.c },
            warned := sel.2 }

/-- OpenInterestData from rest_fetcher.rs. -/
structure OpenInterestData where
  symbol : String
  open_interest : Rat
  timestamp : Int
  deriving DecidableEq, Repr

/-- RatioMetricsData from rest_fetcher.rs. -/
structure RatioMetricsData where
  symbol : String
  long_value : Rat
  short_value : Rat
  ratio_value : Rat
  timestamp : Int
  deriving DecidableEq, Repr

/-- OpenInterestHistData from rest_fetcher.rs. -/
structure OpenInterestHistData where
  symbol : String
  sum_open_interest : Rat
  sum_open_interest_value : Rat
  cmc_circulating_supply : Rat
  timestamp : Int
  deriving DecidableEq, Repr

/-- The per-symbol result vectors of OneMinuteResult / FiveMinuteResult. -/
abbrev SymResults (α : Type) := List (Except (String × FetchError) α)

/-- OneMinuteResult (the two BAPI/SAPI body fields feed only the
BinanceMktStatus path, modelled separately). -/
structure OneMinuteResult where
  close_time : Int
  premium_index : SymResults PremiumIndexData
  open_interest : SymResults OpenInterestData
  deriving Repr

/-- FiveMinuteResult. -/
structure FiveMinuteResult where
  close_time : Int
  top_account : SymResults RatioMetricsData
  top_position : SymResults RatioMetricsData
  global_account : SymResults RatioMetricsData
  open_interest_hist : SymResults OpenInterestHistData
  deriving Repr

/-- Final content of a HashMap built by inserting every Ok datum keyed by
its symbol in list order (later inserts overwrite earlier ones). -/
def last_ok_for {α : Type} (getSym : α → String) (results : SymResults α)
    (symbol : String) : Option α :=
  results.foldl (fun acc r =>
    match r with
    | .ok d => if getSym d = symbol then some d else acc
    | .error _ => acc) none

/-- The oi_map lookup of send_one_minute_messages. -/
def oi_lookup (results : SymResults OpenInterestData) (symbol : String) :
    Option OpenInterestData :=
  last_ok_for (fun d => d.symbol) results symbol

/-- send_one_minute_messages: one PremiumIndexKlineMsg per successful
premium-index result, augmented with open interest when the symbol is in
the oi map; failures emit nothing. -/
def send_one_minute_messages (result : OneMinuteResult) : List Frame :=
  result.premium_index.filterMap (fun r =>
    match r with
    | .error _ => none
    | .ok pi_data =>
      let msg := PremiumIndexKlineMsg.create pi_data.symbol pi_data.open_price
        pi_data.high_price pi_data.low_price pi_data.close_price pi_data.open_time
      let msg :=
        match oi_lookup result.open_interest pi_data.symbol with
        | some oi_data => msg.set_open_interest oi_data.open_interest oi_data.timestamp
        | none => msg
      some (Frame.premiumIndexKline msg))

/-- Modelled from the spec: send_binance_mkt_status_message emits at most
one BinanceMktStatus frame, and only when both the borrow and the
inventory caches are ready (the BinanceMktStatusMsg struct is absent from
the provided sources); the composed payload is abstracted to the
(period, info_count) pair the send is keyed on. -/
def send_binance_mkt_status_message (status : Option (Int × Int)) : List Frame :=
  match status with
  | some (period, info_count) => [Frame.binanceMktStatus period info_count]
  | none => []

/-- The premium-index failure count printed by print_one_minute_summary
(pi_fail = total − successes). -/
def premium_index_fail_count (result : OneMinuteResult) : Nat :=
  result.premium_index.length -
    (result.premium_index.filter (fun r => r.isOk)).length

/-- The frame emission of one 1-minute tick in
run_rest_fetcher_with_sender: the per-symbol PremiumIndexKline frames,
then the optional BinanceMktStatus frame, then unconditionally one
BarClose1m frame carrying the tick close_time. -/
def one_minute_tick_frames (result : OneMinuteResult)
    (mkt_status : Option (Int × Int)) : List Frame :=
  send_one_minute_messages result ++ send_binance_mkt_status_message mkt_status ++
    [Frame.barClose1m { close_time := result.close_time }]

/-- The to_i64 closure of fetch_ratio_metrics: a JSON value as i64 or else
parsed from a string. -/
def json_to_i64 (v : Json) : Option Int :=
  match v.as_i64 with
  | some n => some n
  | none => v.as_str.bind parse_i64_str

/-- The timestamp match of fetch_ratio_metrics: entry timestamp equal to
close_time or close_time + 1. -/
def entry_matches (close_time : Int) (entry : Json) : Bool :=
  let ts := (entry.get "timestamp").bind json_to_i64
  ts = some close_time ∨ ts = some (close_time + 1)

/-- The parse_value closure of fetch_ratio_metrics. -/
def parse_ratio_value (entry : Json) (key : String) : Option Rat :=
  (entry.get key).bind (fun v =>
    match v.as_f64 with
    | some x => some x
    | none => v.as_str.bind parse_f64)

/-- fetch_ratio_metrics after the HTTP/JSON stage: pick the first entry
whose timestamp is close_time or close_time + 1 (else MatchFailure), then
read the long/short/longShortRatio values. -/
def fetch_ratio_metrics (symbol : String) (close_time : Int)
    (long_key short_key : String) (entries : List Json) :
    Except FetchError RatioMetricsData :=
  if entries.isEmpty then .error .EmptyResponse
  else
    match entries.find? (fun e => entry_matches close_time e) with
    | none => .error .MatchFailure
    | some entry =>
      match parse_ratio_value entry long_key, parse_ratio_value entry short_key,
            parse_ratio_value entry "longShortRatio" with
      | some long_value, some short_value, some ratio_value =>
        .ok { symbol := symbol, long_value := long_value, short_value := short_value,
              ratio_value := ratio_value,
              timestamp := (((entry.get "timestamp").bind json_to_i64).getD close_time) }
      | none, _, _ => .error (.MissingField long_key)
      | some _, none, _ => .error (.MissingField short_key)
      | some _, some _, none => .error (.MissingField "longShortRatio")

/-- The all_symbols HashSet of send_five_minute_messages: the set of
symbols with a successful top_account result (iteration order of the hash
set is immaterial to the claims; a deduplicated list stands for it). -/
def all_symbols (result : FiveMinuteResult) : List String :=
  (result.top_account.filterMap (fun r =>
    match r with
    | .ok d => some d.symbol
    | .error _ => none)).dedup

/-- The body of the per-symbol loop of send_five_minute_messages: a frame
is built only when account, position and global lookups all succeed; the
open-interest-hist datum only augments it. -/
def five_minute_frame_for (result : FiveMinuteResult) (symbol : String) :
    Option Frame :=
  match last_ok_for (fun d => d.symbol) result.top_account symbol,
        last_ok_for (fun d => d.symbol) result.top_position symbol,
        last_ok_for (fun d => d.symbol) result.global_account symbol with
  | some account, some position, some global =>
    let msg := TopLongShortRatioMsg.create symbol result.close_time
      account.long_value account.short_value account.ratio_value
      position.long_value position.short_value position.ratio_value
      global.long_value global.short_value global.ratio_value
      account.timestamp position.timestamp global.timestamp
    let msg :=
      match last_ok_for (fun d => d.symbol) result.open_interest_hist symbol with
      | some oi_hist => msg.set_open_interest_hist oi_hist.sum_open_interest
          oi_hist.sum_open_interest_value oi_hist.cmc_circulating_supply
          oi_hist.timestamp
      | none => msg
    some (Frame.topLongShortFrame msg)
  | _, _, _ => none

/-- send_five_minute_messages. -/
def send_five_minute_messages (result : FiveMinuteResult) : List Frame :=
  (all_symbols result).filterMap (five_minute_frame_for result)

/-- BinanceRestFetcher state (HTTP client omitted; symbols is the tracked
symbol list). -/
structure BinanceRestFetcher where
  spot_base_url : String
  futures_base_url : String
  symbols : List String
  deriving DecidableEq, Repr

/-- BinanceRestFetcher::refresh_symbols, with the outcome of
fetch_futures_symbols passed in: on error the `?` operator returns before
`self.symbols` is assigned; on success the list is replaced. -/
def BinanceRestFetcher.refresh_symbols (f : BinanceRestFetcher)
    (fetched : Except FetchError (List String)) :
    BinanceRestFetcher × Except FetchError Unit :=
  match fetched with
  | .error e => (f, .error e)
  | .ok symbols => ({ f with symbols := symbols }, .ok ())

/-- is_five_minute_boundary. -/
def is_five_minute_boundary (close_time : Int) : Bool :=
  close_time % 300000 = 0

/-- The symbol-refresh step of the run loop: at a 5-minute boundary call
refresh_symbols and continue with its state (a warning is logged on error
and the existing list is kept); otherwise the fetcher is untouched. -/
def five_minute_refresh_step (f : BinanceRestFetcher) (close_time : Int)
    (fetched : Except FetchError (List String)) : BinanceRestFetcher :=
  if is_five_minute_boundary close_time then (f.refresh_symbols fetched).1 else f

/-- The io::ErrorKind values distinguished by WsConnector::is_dns_error. -/
inductive IoErrorKind where
  | connectionRefused
  | connectionAborted
  | connectionReset
  | notConnected
  | otherKind
  deriving DecidableEq, Repr

/-- tungstenite connect errors, as classified by is_dns_error. -/
inductive WsError where
  | ioErr (kind : IoErrorKind)
  | httpErr (status : Nat)
  | otherErr
  deriving DecidableEq, Repr

/-- WsConnector::is_dns_error: retry-eligible errors are the four
connection io kinds and any HTTP response with a non-success status. -/
def is_dns_error : WsError → Bool
  | .ioErr kind =>
    match kind with
    | .connectionRefused => true
    | .connectionAborted => true
    | .connectionReset => true
    | .notConnected => true
    | .otherKind => false
  | .httpErr status => !(200 ≤ status ∧ status ≤ 299 : Bool)
  | .otherErr => false

/-- Outcome of one connect attempt: the handshake succeeds (and then the
subscription send succeeds or fails), or connect_async fails with an
error. -/
inductive AttemptOutcome where
  | connected (send_ok : Bool)
  | failed (e : WsError)
  deriving DecidableEq, Repr

/-- Result of WsConnector::connect. -/
inductive ConnectResult where
  | success
  | fatalSend
  | fatalConnect (e : WsError)
  | exhausted
  deriving DecidableEq, Repr

/-- Observable trace of the connect loop: final result, number of connect
attempts made, and number of 1-second retry sleeps performed. -/
structure ConnectTrace where
  result : ConnectResult
  attempts_used : Nat
  sleeps : Nat
  deriving DecidableEq, Repr

/-- The retry loop of WsConnector::connect with `fuel` attempts left:
attempt index `used` is made; a retry-eligible failure sleeps 1 s and
continues, anything else returns at once. -/
def ws_connect_aux (attempts : Nat → AttemptOutcome) :
    Nat → Nat → Nat → ConnectTrace
  | 0, used, slept => { result := .exhausted, attempts_used := used, sleeps := slept }
  | fuel + 1, used, slept =>
    match attempts used with
    | .connected true => { result := .success, attempts_used := used + 1, sleeps := slept }
    | .connected false => { result := .fatalSend, attempts_used := used + 1, sleeps := slept }
    | .failed e =>
      if is_dns_error e then ws_connect_aux attempts fuel (used + 1) (slept + 1)
      else { result := .fatalConnect e, attempts_used := used + 1, sleeps := slept }

/-- WsConnector::connect: MAX_RETRIES = 5 attempts. -/
def ws_connect (attempts : Nat → AttemptOutcome) : ConnectTrace :=
  ws_connect_aux attempts 5 0 0

/-- A frame is a PremiumIndexKline frame for the given symbol. -/
def premium_frame_for (symbol : String) : Frame → Bool
  | .premiumIndexKline m => m.symbol = symbol
  | _ => false

/-- A frame is a BarClose1m frame. -/
def is_bar_close_frame : Frame → Bool
  | .barClose1m _ => true
  | _ => false

/-- A frame is a TopLongShortRatio frame for the given symbol. -/
def top_ratio_frame_for (symbol : String) : Frame → Bool
  | .topLongShortFrame m => m.symbol = symbol
  | _ => false

/-- A TopLongShortRatio frame for the symbol is emitted by the 5-minute
broadcast. -/
def emits_ratio_for (result : FiveMinuteResult) (symbol : String) : Prop :=
  ∃ m : TopLongShortRatioMsg,
    Frame.topLongShortFrame m ∈ send_five_minute_messages result ∧ m.symbol = symbol

/-- The spec scenario-2 futures depthUpdate payload. -/
def depth_payload : Json :=
  Json.jobj [("e", Json.jstr "depthUpdate"), ("s", Json.jstr "BTCUSDT"),
    ("U", Json.jnum 10), ("u", Json.jnum 20), ("pu", Json.jnum 9),
    ("T", Json.jnum 1710000000000),
    ("b", Json.jarr [Json.jarr [Json.jstr "100", Json.jstr "1"]]),
    ("a", Json.jarr [Json.jarr [Json.jstr "101", Json.jstr "2"]])]

/-- The spec scenario-1 futures trade payload. -/
def trade_payload : Json :=
  Json.jobj [("e", Json.jstr "trade"), ("s", Json.jstr "BTCUSDT"),
    ("t", Json.jnum 42), ("p", Json.jstr "100.5"), ("q", Json.jstr "0.01"),
    ("T", Json.jnum 1710000000000), ("m", Json.jbool true)]

/-- A kline payload with every required field and x = false (bar open). -/
def kline_open_payload : Json :=
  Json.jobj [("e", Json.jstr "kline"), ("s", Json.jstr "BTCUSDT"),
    ("k", Json.jobj [("x", Json.jbool false),
      ("o", Json.jstr "1"), ("h", Json.jstr "2"), ("l", Json.jstr "0.5"),
      ("c", Json.jstr "1.5"), ("v", Json.jstr "10"), ("q", Json.jstr "15"),
      ("t", Json.jnum 1710000000000), ("n", Json.jnum 7),
      ("V", Json.jstr "4"), ("Q", Json.jstr "6")])]

/-- The same kline payload with x = true (bar closed). -/
def kline_closed_payload : Json :=
  Json.jobj [("e", Json.jstr "kline"), ("s", Json.jstr "BTCUSDT"),
    ("k", Json.jobj [("x", Json.jbool true),
      ("o", Json.jstr "1"), ("h", Json.jstr "2"), ("l", Json.jstr "0.5"),
      ("c", Json.jstr "1.5"), ("v", Json.jstr "10"), ("q", Json.jstr "15"),
      ("t", Json.jnum 1710000000000), ("n", Json.jnum 7),
      ("V", Json.jstr "4"), ("Q", Json.jstr "6")])]

/-- A snapshot payload whose only bid level has unparseable price and
amount strings. -/
def snapshot_bad_level_payload : Json :=
  Json.jobj [("s", Json.jstr "BTCUSDT"), ("lastUpdateId", Json.jnum 5),
    ("bids", Json.jarr [Json.jarr [Json.jstr "abc", Json.jstr "zzz"]]),
    ("asks", Json.jarr [])]

/-- Premium-index records with open times 0 and 60000, neither matching
the expected open time 120000 of close_time 180000. -/
def c3_mismatch_records : List (List Json) :=
  [[Json.jnum 0, Json.jstr "0.1", Json.jstr "0.2", Json.jstr "0.05", Json.jstr "0.15"],
   [Json.jnum 60000, Json.jstr "1", Json.jstr "2", Json.jstr "3", Json.jstr "4"]]

deriving instance DecidableEq for Except

/-- The Trade frame the scenario-1 payload must produce. -/
def trade_scenario_msg : TradeMsg :=
  { symbol := "BTCUSDT", id := 42, timestamp := 1710000000000, side := 'S',
    price := mkRat 201 2, amount := mkRat 1 100 }

/-- The BinanceIncSeqNo frame the spot parser emits for depth_payload
(pu hardwired to 0 for spot). -/
def depth_spot_seq_msg : BinanceIncSeqNoMsg :=
  { symbol := "BTCUSDT", pu := 0, u := 20, u_upper := 10, timestamp := 1710000000000 }

/-- The OrderBookInc frame for depth_payload. -/
def depth_inc_msg : IncMsg :=
  { symbol := "BTCUSDT", first_update_id := 10, final_update_id := 20,
    timestamp := 1710000000000, is_snapshot := false, bids_count := 1, asks_count := 1,
    levels := [{ price := 100, amount := 1 }, { price := 101, amount := 2 }] }

/-- The Kline frame for kline_closed_payload. -/
def kline_closed_msg : KlineMsg :=
  { symbol := "BTCUSDT", open_price := 1, high_price := 2, low_price := mkRat 1 2,
    close_price := mkRat 3 2, volume := 10, turnover := 15, timestamp := 1710000000000,
    trade_num := 7, taker_buy_vol := 4, taker_buy_quote_vol := 6 }

/-- The OrderBookInc frame for snapshot_bad_level_payload: the malformed
bid level is present, defaulted to (0.0, 0.0). -/
def snapshot_bad_level_msg : IncMsg :=
  { symbol := "BTCUSDT", first_update_id := 6, final_update_id := 6, timestamp := 0,
    is_snapshot := true, bids_count := 1, asks_count := 0,
    levels := [{ price := 0, amount := 0 }] }

/-- What fetch_premium_index returns on c3_mismatch_records at close_time
180000: the FIRST record (open_time 0), with the mismatch warning. -/
def c3_selected : PremiumSelect :=
  { data := { symbol := "BTCUSDT", open_time := 0, open_price := mkRat 1 10,
              high_price := mkRat 1 5, low_price := mkRat 1 20,
              close_price := mkRat 3 20 },
    warned := true }

/-- A trade payload whose price string parses to zero. -/
def trade_zero_payload : Json :=
  Json.jobj [("e", Json.jstr "trade"), ("s", Json.jstr "BTCUSDT"),
    ("t", Json.jnum 42), ("p", Json.jstr "0"), ("q", Json.jstr "0.01"),
    ("T", Json.jnum 1710000000000), ("m", Json.jbool true)]

/-- The spec scenario-4 tick result: the premium-index fetch for BTCUSDT
failed with an empty response at close_time 1710000060000. -/
def c4_result : OneMinuteResult :=
  { close_time := 1710000060000,
    premium_index := [Except.error ("BTCUSDT", FetchError.EmptyResponse)],
    open_interest := [] }

/-- A 5-minute result where account, position and global all succeeded for
BTCUSDT and the open-interest-hist fetch failed. -/
def c5_full_result : FiveMinuteResult :=
  { close_time := 1710000300000,
    top_account := [Except.ok { symbol := "BTCUSDT", long_value := 2,
                                short_value := 1, ratio_value := 2,
                                timestamp := 1710000300000 }],
    top_position := [Except.ok { symbol := "BTCUSDT", long_value := 3,
                                 short_value := 1, ratio_value := 3,
                                 timestamp := 1710000300000 }],
    global_account := [Except.ok { symbol := "BTCUSDT", long_value := 4,
                                   short_value := 1, ratio_value := 4,
                                   timestamp := 1710000300001 }],
    open_interest_hist := [Except.error ("BTCUSDT", FetchError.EmptyResponse)] }

/-- The TopLongShortRatio frame c5_full_result must produce (hist fields
defaulted, since the hist fetch failed). -/
def c5_expected_msg : TopLongShortRatioMsg :=
  { symbol := "BTCUSDT", timestamp := 1710000300000,
    top_account_long := 2, top_account_short := 1, top_account_ratio := 2,
    top_position_long := 3, top_position_short := 1, top_position_ratio := 3,
    global_account_long := 4, global_account_short := 1, global_account_ratio := 4,
    top_account_timestamp := 1710000300000,
    top_position_timestamp := 1710000300000,
    global_account_timestamp := 1710000300001,
    sum_open_interest := 0, sum_open_interest_value := 0,
    cmc_circulating_supply := 0, open_interest_hist_timestamp := 0 }

/-- A one-entry ratio response whose timestamp matches the close time. -/
def c5_entries : List Json :=
  [Json.jobj [("timestamp", Json.jnum 1710000300000),
    ("longAccount", Json.jstr "2"), ("shortAccount", Json.jstr "1"),
    ("longShortRatio", Json.jstr "2")]]

/-- The ratio metrics parsed from c5_entries. -/
def c5_entry_data : RatioMetricsData :=
  { symbol := "BTCUSDT", long_value := 2, short_value := 1, ratio_value := 2,
    timestamp := 1710000300000 }

/-- An attempt sequence whose first connect attempt fails with a
non-retryable error. -/
def c8_fatal_attempts : Nat → AttemptOutcome :=
  fun _ => AttemptOutcome.failed WsError.otherErr

/-- A fetcher state for exercising refresh_symbols. -/
def c10_fetcher : BinanceRestFetcher :=
  { spot_base_url := "https://api.binance.com",
    futures_base_url := "https://fapi.binance.com",
    symbols := ["btcusdt", "ethusdt"] }

theorem applyBidItem_eq_setLevels (m : IncMsg) (p : Nat × Json) :
    ∃ lv, applyBidItem m p = { m with levels := lv } := by
  unfold applyBidItem IncMsg.set_bid_level
  repeat' split
  all_goals exact ⟨_, rfl⟩

theorem applyAskItem_eq_setLevels (m : IncMsg) (p : Nat × Json) :
    ∃ lv, applyAskItem m p = { m with levels := lv } := by
  unfold applyAskItem IncMsg.set_ask_level
  repeat' split
  all_goals exact ⟨_, rfl⟩

theorem foldl_applyBid_eq_setLevels (l : List (Nat × Json)) :
    ∀ m : IncMsg, ∃ lv, l.foldl applyBidItem m = { m with levels := lv } := by
  induction l with
  | nil => intro m; exact ⟨m.levels, rfl⟩
  | cons p l ih =>
    intro m
    rw [List.foldl_cons]
    obtain ⟨lv1, h1⟩ := applyBidItem_eq_setLevels m p
    obtain ⟨lv2, h2⟩ := ih (applyBidItem m p)
    rw [h2, h1]
    exact ⟨lv2, rfl⟩

theorem foldl_applyAsk_eq_setLevels (l : List (Nat × Json)) :
    ∀ m : IncMsg, ∃ lv, l.foldl applyAskItem m = { m with levels := lv } := by
  induction l with
  | nil => intro m; exact ⟨m.levels, rfl⟩
  | cons p l ih =>
    intro m
    rw [List.foldl_cons]
    obtain ⟨lv1, h1⟩ := applyAskItem_eq_setLevels m p
    obtain ⟨lv2, h2⟩ := ih (applyAskItem m p)
    rw [h2, h1]
    exact ⟨lv2, rfl⟩

/-- parse_order_book_levels only writes level slots: every other field of
the message is preserved. -/
theorem parse_order_book_levels_eq_setLevels (bids asks : List Json) (m : IncMsg) :
    ∃ lv, parse_order_book_levels bids asks m = { m with levels := lv } := by
  unfold parse_order_book_levels
  obtain ⟨lv1, h1⟩ := foldl_applyBid_eq_setLevels bids.enum m
  obtain ⟨lv2, h2⟩ := foldl_applyAsk_eq_setLevels asks.enum (bids.enum.foldl applyBidItem m)
  rw [h2, h1]
  exact ⟨lv2, rfl⟩

theorem length_filter_lt_of_mem {α : Type} (p : α → Bool) {l : List α} {a : α}
    (ha : a ∈ l) (hpa : p a = false) : (l.filter p).length < l.length := by
  induction l with
  | nil => cases ha
  | cons b l ih =>
    rcases List.mem_cons.mp ha with hab | hal
    · subst hab
      rw [List.filter_cons_of_neg (by simp [hpa])]
      exact Nat.lt_succ_of_le (List.length_filter_le p l)
    · cases hb : p b with
      | true =>
        rw [List.filter_cons_of_pos (by simp [hb])]
        exact Nat.succ_lt_succ (ih hal)
      | false =>
        rw [List.filter_cons_of_neg (by simp [hb])]
        exact Nat.lt_succ_of_lt (ih hal)

theorem last_ok_for_fold_aux {α : Type} (getSym : α → String) (s : String) (d : α) :
    ∀ (l : SymResults α) (acc : Option α),
      l.foldl (fun acc r =>
        match r with
        | .ok d2 => if getSym d2 = s then some d2 else acc
        | .error _ => acc) acc = some d →
      acc = some d ∨ (Except.ok d ∈ l ∧ getSym d = s) := by
  intro l
  induction l with
  | nil => intro acc h; exact Or.inl h
  | cons r l ih =>
    intro acc h
    rw [List.foldl_cons] at h
    rcases ih _ h with h2 | h2
    · cases r with
      | error e => exact Or.inl h2
      | ok d2 =>
        dsimp only at h2
        by_cases hg : getSym d2 = s
        · rw [if_pos hg] at h2
          injection h2 with h2
          subst h2
          exact Or.inr ⟨List.mem_cons_self _ _, hg⟩
        · rw [if_neg hg] at h2
          exact Or.inl h2
    · exact Or.inr ⟨List.mem_cons_of_mem _ h2.1, h2.2⟩

/-- A value found in the symbol-keyed HashMap came from a successful entry
of the result list and carries the looked-up symbol. -/
theorem last_ok_for_mem {α : Type} (getSym : α → String) (results : SymResults α)
    (s : String) (d : α) (h : last_ok_for getSym results s = some d) :
    Except.ok d ∈ results ∧ getSym d = s := by
  rcases last_ok_for_fold_aux getSym s d results none h with h2 | h2
  · cases h2
  · exact h2

/-- C6: the Binance futures trade payload of spec scenario 1 produces
exactly one Trade frame, whose encoded byte length is 55
(4+4+7+8+8+1+7+8+8) and whose side byte (offset 31) is 'S'. -/
theorem C6_trade_scenario :
    BinanceTradeParser.parse trade_payload = [Frame.trade trade_scenario_msg]
    ∧ trade_scenario_msg.to_bytes.length = 55
    ∧ trade_scenario_msg.to_bytes.get? 31 = some (83 : Nat)
    ∧ trade_scenario_msg.side = 'S' := by
  decide

/-- C3: with limit-2 records whose open times are 0 and 60000 and
close_time 180000 (expected open time 120000), neither record matches;
fetch_premium_index does not fail and logs the mismatch warning, but it
falls back to the FIRST record (open_time 0), not the latest record
(open_time 60000) that its own comment promises. -/
theorem C3_mismatch_keeps_first_record :
    fetch_premium_index "BTCUSDT" 180000 c3_mismatch_records = Except.ok c3_selected
    ∧ c3_selected.data.open_time = 0
    ∧ c3_selected.warned = true
    ∧ ((c3_mismatch_records.get? 0).bind parse_record).map (fun r => r.open_time) =
        some 0
    ∧ ((c3_mismatch_records.get? 1).bind parse_record).map (fun r => r.open_time) =
        some 60000 := by
  decide

/-- C1 counterexample: the depthUpdate payload of spec scenario 2, fed to
the parser configured for SPOT, emits two frames — a BinanceIncSeqNo
(with pu = 0) followed by the OrderBookInc — not only the OrderBookInc. -/
theorem C1_spot_also_emits_seq_no :
    BinanceIncParser.parse false depth_payload =
      [Frame.binanceIncSeqNo depth_spot_seq_msg, Frame.orderBookInc depth_inc_msg]
    ∧ (BinanceIncParser.parse false depth_payload).length ≠ 1 := by
  decide

/-- C1 amended: every accepted depthUpdate payload emits exactly two
frames in both configurations — a BinanceIncSeqNo first, immediately
followed by an OrderBookInc with the same symbol and is_snapshot = false;
for spot the sequence frame carries pu = 0 (for futures, the payload pu). -/
theorem C1_depth_emission (is_futures : Bool) (j : Json) (sym : String)
    (U u ts : Int) (bids asks : List Json) (pu : Int)
    (he : (j.get "e").bind Json.as_str = some "depthUpdate")
    (hf : inc_fields j = some (sym, U, u, ts, bids, asks))
    (hpu : inc_pu is_futures j = some pu) :
    ∃ seq inc, BinanceIncParser.parse is_futures j =
        [Frame.binanceIncSeqNo seq, Frame.orderBookInc inc]
      ∧ seq.symbol = sym ∧ inc.symbol = sym ∧ inc.is_snapshot = false
      ∧ seq.pu = pu ∧ seq.u = u ∧ seq.u_upper = U ∧ seq.timestamp = ts
      ∧ inc.first_update_id = U ∧ inc.final_update_id = u ∧ inc.timestamp = ts
      ∧ (is_futures = false → seq.pu = 0) := by
  have hparse : BinanceIncParser.parse is_futures j =
      [Frame.binanceIncSeqNo (BinanceIncSeqNoMsg.create sym pu u U ts),
       Frame.orderBookInc (parse_order_book_levels bids asks
         (IncMsg.create sym U u ts false bids.length asks.length))] := by
    unfold BinanceIncParser.parse
    rw [he]
    dsimp only
    rw [if_pos rfl]
    unfold BinanceIncParser.parse_inc_event
    rw [hf]
    dsimp only
    rw [hpu]
  obtain ⟨lv, hlv⟩ := parse_order_book_levels_eq_setLevels bids asks
    (IncMsg.create sym U u ts false bids.length asks.length)
  refine ⟨BinanceIncSeqNoMsg.create sym pu u U ts,
    parse_order_book_levels bids asks
      (IncMsg.create sym U u ts false bids.length asks.length),
    hparse, ?_, ?_, ?_, ?_, ?_, ?_, ?_, ?_, ?_, ?_, ?_⟩
  · rfl
  · rw [hlv]; rfl
  · rw [hlv]; rfl
  · rfl
  · rfl
  · rfl
  · rfl
  · rw [hlv]; rfl
  · rw [hlv]; rfl
  · rw [hlv]; rfl
  · intro hff
    rw [hff] at hpu
    unfold inc_pu at hpu
    simp only [Bool.false_eq_true, if_false, Option.some.injEq] at hpu
    exact hpu ▸ rfl

theorem C1_depth_emission_witness :
    ((depth_payload.get "e").bind Json.as_str = some "depthUpdate")
    ∧ inc_fields depth_payload = some ("BTCUSDT", 10, 20, 1710000000000,
        [Json.jarr [Json.jstr "100", Json.jstr "1"]],
        [Json.jarr [Json.jstr "101", Json.jstr "2"]])
    ∧ inc_pu true depth_payload = some 9
    ∧ (∃ seq inc, BinanceIncParser.parse true depth_payload =
          [Frame.binanceIncSeqNo seq, Frame.orderBookInc inc]
        ∧ seq.symbol = "BTCUSDT" ∧ inc.symbol = "BTCUSDT" ∧ inc.is_snapshot = false
        ∧ seq.pu = 9 ∧ seq.u = 20 ∧ seq.u_upper = 10 ∧ seq.timestamp = 1710000000000
        ∧ inc.first_update_id = 10 ∧ inc.final_update_id = 20
        ∧ inc.timestamp = 1710000000000
        ∧ (true = false → seq.pu = 0)) :=
  ⟨by decide, by rfl, by decide,
   C1_depth_emission true depth_payload "BTCUSDT" 10 20 1710000000000
     [Json.jarr [Json.jstr "100", Json.jstr "1"]]
     [Json.jarr [Json.jstr "101", Json.jstr "2"]] 9
     (by decide) (by rfl) (by decide)⟩

/-- C2 counterexample: a kline payload that contains the symbol, the
nested kline object and every required o/h/l/c/v/q/t/n/V/Q field, but has
x = false, makes the parser emit nothing — the closed flag gates
emission, it is not informational only. -/
theorem C2_open_bar_emits_nothing :
    ((kline_open_payload.get "k").bind kline_fields).isSome = true
    ∧ BinanceKlineParser.parse kline_open_payload = [] := by
  decide

/-- C2 amended: the Kline parser emits a frame only when the bar-closed
flag x is present and true; when x is false or missing it returns 0 and
emits nothing.  With x = true and all required fields parsed, exactly one
Kline frame is emitted. -/
theorem C2_kline_closed_gate :
    (∀ (j : Json) (sym : String) (k : Json),
        (j.get "s").bind Json.as_str = some sym → j.get "k" = some k →
        ¬ ((k.get "x").bind Json.as_bool = some true) →
        BinanceKlineParser.parse j = [])
    ∧ (∀ (j : Json) (sym : String) (k : Json)
        (o h l c v q : String) (t n : Int) (vv qq : String)
        (op hi lo cl vol tur tbv tbqv : Rat),
        (j.get "s").bind Json.as_str = some sym → j.get "k" = some k →
        (k.get "x").bind Json.as_bool = some true →
        kline_fields k = some (o, h, l, c, v, q, t, n, vv, qq) →
        parse_f64 o = some op → parse_f64 h = some hi → parse_f64 l = some lo →
        parse_f64 c = some cl → parse_f64 v = some vol → parse_f64 q = some tur →
        parse_f64 vv = some tbv → parse_f64 qq = some tbqv →
        BinanceKlineParser.parse j =
          [Frame.kline ((KlineMsg.create sym op hi lo cl vol tur t).set_binance_fields
            n tbv tbqv)]) := by
  constructor
  · intro j sym k hs hk hx
    unfold BinanceKlineParser.parse
    rw [hs, hk]
    dsimp only
    cases hb : (k.get "x").bind Json.as_bool with
    | none => rfl
    | some b =>
      cases b with
      | true => exact absurd hb hx
      | false => rfl
  · intro j sym k o h l c v q t n vv qq op hi lo cl vol tur tbv tbqv
      hs hk hx hfields ho hh hl hc hv hq hvv hqq
    unfold BinanceKlineParser.parse
    rw [hs, hk]
    dsimp only
    rw [hx]
    dsimp only
    rw [hfields]
    dsimp only
    rw [ho, hh, hl, hc, hv, hq, hvv, hqq]
    simp

theorem C2_kline_closed_gate_witness :
    BinanceKlineParser.parse kline_open_payload = []
    ∧ BinanceKlineParser.parse kline_closed_payload = [Frame.kline kline_closed_msg] := by
  constructor
  · exact C2_kline_closed_gate.1 kline_open_payload "BTCUSDT"
      (Json.jobj [("x", Json.jbool false),
        ("o", Json.jstr "1"), ("h", Json.jstr "2"), ("l", Json.jstr "0.5"),
        ("c", Json.jstr "1.5"), ("v", Json.jstr "10"), ("q", Json.jstr "15"),
        ("t", Json.jnum 1710000000000), ("n", Json.jnum 7),
        ("V", Json.jstr "4"), ("Q", Json.jstr "6")])
      (by decide) (by rfl) (by decide)
  · have hp := C2_kline_closed_gate.2 kline_closed_payload "BTCUSDT"
      (Json.jobj [("x", Json.jbool true),
        ("o", Json.jstr "1"), ("h", Json.jstr "2"), ("l", Json.jstr "0.5"),
        ("c", Json.jstr "1.5"), ("v", Json.jstr "10"), ("q", Json.jstr "15"),
        ("t", Json.jnum 1710000000000), ("n", Json.jnum 7),
        ("V", Json.jstr "4"), ("Q", Json.jstr "6")])
      "1" "2" "0.5" "1.5" "10" "15" 1710000000000 7 "4" "6"
      1 2 (mkRat 1 2) (mkRat 3 2) 10 15 4 6
      (by decide) (by rfl) (by decide) (by rfl) (by decide) (by decide)
      (by decide) (by decide) (by decide) (by decide) (by decide) (by decide)
    rw [hp]
    decide

/-- C9: Level::new substitutes 0.0 for any price or amount string that
does not parse, and a snapshot payload whose level is malformed is still
emitted as an OrderBookInc frame carrying the (0.0, 0.0)-defaulted level
rather than being dropped. -/
theorem C9_malformed_level_defaults :
    (∀ price_str amount_str : String, parse_f64 price_str = none →
        (Level.new price_str amount_str).price = 0)
    ∧ (∀ price_str amount_str : String, parse_f64 amount_str = none →
        (Level.new price_str amount_str).amount = 0)
    ∧ BinanceSnapshotParser.parse snapshot_bad_level_payload =
        [Frame.orderBookInc snapshot_bad_level_msg]
    ∧ snapshot_bad_level_msg.levels = [{ price := 0, amount := 0 }] := by
  refine ⟨?_, ?_, by decide, by decide⟩
  · intro ps qs hp
    simp [Level.new, hp]
  · intro ps qs hq
    simp [Level.new, hq]

theorem C9_malformed_level_defaults_witness :
    parse_f64 "abc" = none
    ∧ parse_f64 "zzz" = none
    ∧ (Level.new "abc" "zzz").price = 0
    ∧ (Level.new "abc" "zzz").amount = 0 :=
  ⟨by decide, by decide,
   C9_malformed_level_defaults.1 "abc" "zzz" (by decide),
   C9_malformed_level_defaults.2.1 "abc" "zzz" (by decide)⟩

/-- C7: when every required trade field parses, a non-positive price or
quantity makes the parser emit nothing; otherwise exactly one Trade frame
is emitted whose side is 'S' exactly when buyer_is_maker and 'B'
otherwise. -/
theorem C7_trade_drop_and_side (j : Json) (sym : String) (tid : Int)
    (price_str qty_str : String) (trade_time : Int) (is_maker : Bool)
    (price amount : Rat)
    (hf : trade_fields j = some (sym, tid, price_str, qty_str, trade_time, is_maker))
    (hp : parse_f64 price_str = some price)
    (hq : parse_f64 qty_str = some amount) :
    ((price ≤ 0 ∨ amount ≤ 0) → BinanceTradeParser.parse_trade_event j = [])
    ∧ (0 < price → 0 < amount →
        BinanceTradeParser.parse_trade_event j =
          [Frame.trade (TradeMsg.create sym tid trade_time
            (if is_maker then 'S' else 'B') price amount)]) := by
  have hev : BinanceTradeParser.parse_trade_event j =
      if price ≤ 0 ∨ amount ≤ 0 then []
      else [Frame.trade (TradeMsg.create sym tid trade_time
        (if is_maker then 'S' else 'B') price amount)] := by
    unfold BinanceTradeParser.parse_trade_event
    rw [hf]
    dsimp only
    rw [hp, hq]
  constructor
  · intro hle
    rw [hev, if_pos hle]
  · intro h1 h2
    rw [hev, if_neg]
    push_neg
    exact ⟨h1, h2⟩

theorem C7_trade_drop_and_side_witness :
    trade_fields trade_zero_payload =
      some ("BTCUSDT", 42, "0", "0.01", 1710000000000, true)
    ∧ parse_f64 "0" = some 0
    ∧ parse_f64 "0.01" = some (mkRat 1 100)
    ∧ ((0 : Rat) ≤ 0 ∨ (mkRat 1 100 : Rat) ≤ 0)
    ∧ BinanceTradeParser.parse_trade_event trade_zero_payload = [] :=
  ⟨by decide, by decide, by decide, Or.inl le_rfl,
   (C7_trade_drop_and_side trade_zero_payload "BTCUSDT" 42 "0" "0.01"
     1710000000000 true 0 (mkRat 1 100) (by decide) (by decide) (by decide)).1
     (Or.inl le_rfl)⟩

/-- C10: a failed exchangeInfo refresh leaves the whole fetcher state (in
particular, the tracked symbol list) unchanged and the tick continues with
the previous list; the list is replaced only when the refresh succeeds. -/
theorem C10_refresh_symbols_atomic (f : BinanceRestFetcher) (close_time : Int)
    (fetched : Except FetchError (List String)) :
    (∀ e, fetched = .error e →
        f.refresh_symbols fetched = (f, .error e)
        ∧ (five_minute_refresh_step f close_time fetched).symbols = f.symbols)
    ∧ (∀ syms, fetched = .ok syms →
        (f.refresh_symbols fetched).1.symbols = syms) := by
  constructor
  · intro e he
    subst he
    refine ⟨rfl, ?_⟩
    unfold five_minute_refresh_step
    split
    · rfl
    · rfl
  · intro syms hok
    subst hok
    rfl

theorem C10_refresh_symbols_atomic_witness :
    (c10_fetcher.refresh_symbols (Except.error FetchError.Timeout) =
        (c10_fetcher, Except.error FetchError.Timeout))
    ∧ (five_minute_refresh_step c10_fetcher 1710000300000
        (Except.error FetchError.Timeout)).symbols = ["btcusdt", "ethusdt"]
    ∧ (c10_fetcher.refresh_symbols (Except.ok ["solusdt"])).1.symbols = ["solusdt"] :=
  ⟨((C10_refresh_symbols_atomic c10_fetcher 1710000300000
      (Except.error FetchError.Timeout)).1 FetchError.Timeout rfl).1,
   ((C10_refresh_symbols_atomic c10_fetcher 1710000300000
      (Except.error FetchError.Timeout)).1 FetchError.Timeout rfl).2,
   (C10_refresh_symbols_atomic c10_fetcher 1710000300000
      (Except.ok ["solusdt"])).2 ["solusdt"] rfl⟩

/-- Every frame of the 1-minute broadcast is a PremiumIndexKline frame
whose symbol belongs to a successful premium-index result. -/
theorem send_one_minute_frame_shape (result : OneMinuteResult) (f : Frame)
    (hf : f ∈ send_one_minute_messages result) :
    ∃ (m : PremiumIndexKlineMsg) (d : PremiumIndexData),
      f = Frame.premiumIndexKline m ∧ Except.ok d ∈ result.premium_index
      ∧ m.symbol = d.symbol := by
  obtain ⟨r, hr, hrf⟩ := List.mem_filterMap.mp hf
  cases r with
  | error e => simp at hrf
  | ok d =>
    dsimp only at hrf
    cases ho : oi_lookup result.open_interest d.symbol with
    | none =>
      rw [ho] at hrf
      dsimp only at hrf
      injection hrf with hrf
      exact ⟨_, d, hrf.symm, hr, rfl⟩
    | some oi =>
      rw [ho] at hrf
      dsimp only at hrf
      injection hrf with hrf
      exact ⟨_, d, hrf.symm, hr, rfl⟩

/-- C4: when every premium-index result for a symbol failed, the 1-minute
tick emits no PremiumIndexKline frame for that symbol, the failure shows
up in the tick summary count, and exactly one BarClose1m frame carrying
the tick close_time is still emitted — per-symbol errors never suppress
it. -/
theorem C4_tick_error_isolation (result : OneMinuteResult)
    (mkt_status : Option (Int × Int)) (s : String)
    (hfail : ∃ e, Except.error (s, e) ∈ result.premium_index)
    (hnoOk : ∀ d : PremiumIndexData, Except.ok d ∈ result.premium_index →
      d.symbol ≠ s) :
    (one_minute_tick_frames result mkt_status).filter (premium_frame_for s) = []
    ∧ (one_minute_tick_frames result mkt_status).filter is_bar_close_frame =
        [Frame.barClose1m { close_time := result.close_time }]
    ∧ 1 ≤ premium_index_fail_count result := by
  have hpi : ∀ f ∈ send_one_minute_messages result, ¬ premium_frame_for s f := by
    intro f hf hpf
    obtain ⟨m, d, hfm, hd, hsym⟩ := send_one_minute_frame_shape result f hf
    subst hfm
    simp only [premium_frame_for, decide_eq_true_eq] at hpf
    exact hnoOk d hd (hsym ▸ hpf)
  have hbc : ∀ f ∈ send_one_minute_messages result, ¬ is_bar_close_frame f := by
    intro f hf hpf
    obtain ⟨m, d, hfm, _, _⟩ := send_one_minute_frame_shape result f hf
    subst hfm
    simp [is_bar_close_frame] at hpf
  have hstatus_pi : (send_binance_mkt_status_message mkt_status).filter
      (premium_frame_for s) = [] := by
    cases mkt_status with
    | none => rfl
    | some pc => simp [send_binance_mkt_status_message, premium_frame_for]
  have hstatus_bc : (send_binance_mkt_status_message mkt_status).filter
      is_bar_close_frame = [] := by
    cases mkt_status with
    | none => rfl
    | some pc => simp [send_binance_mkt_status_message, is_bar_close_frame]
  refine ⟨?_, ?_, ?_⟩
  · unfold one_minute_tick_frames
    rw [List.filter_append, List.filter_append]
    rw [List.filter_eq_nil_iff.mpr hpi, hstatus_pi]
    simp [premium_frame_for]
  · unfold one_minute_tick_frames
    rw [List.filter_append, List.filter_append]
    rw [List.filter_eq_nil_iff.mpr hbc, hstatus_bc]
    simp [is_bar_close_frame]
  · obtain ⟨e, he⟩ := hfail
    have hlt := length_filter_lt_of_mem (fun r => r.isOk) he (by rfl)
    unfold premium_index_fail_count
    omega

theorem C4_tick_error_isolation_witness :
    (∃ e, Except.error ("BTCUSDT", e) ∈ c4_result.premium_index)
    ∧ (one_minute_tick_frames c4_result none).filter (premium_frame_for "BTCUSDT") = []
    ∧ (one_minute_tick_frames c4_result none).filter is_bar_close_frame =
        [Frame.barClose1m { close_time := 1710000060000 }]
    ∧ 1 ≤ premium_index_fail_count c4_result :=
  ⟨⟨FetchError.EmptyResponse, by decide⟩,
   (C4_tick_error_isolation c4_result none "BTCUSDT"
      ⟨FetchError.EmptyResponse, by decide⟩
      (fun d hd => by simp [c4_result] at hd)).1,
   (C4_tick_error_isolation c4_result none "BTCUSDT"
      ⟨FetchError.EmptyResponse, by decide⟩
      (fun d hd => by simp [c4_result] at hd)).2.1,
   (C4_tick_error_isolation c4_result none "BTCUSDT"
      ⟨FetchError.EmptyResponse, by decide⟩
      (fun d hd => by simp [c4_result] at hd)).2.2⟩

/-- A frame returned by the per-symbol body of send_five_minute_messages
is a TopLongShortRatio frame carrying the looked-up symbol. -/
theorem five_minute_frame_shape (result : FiveMinuteResult) (sym : String) (f : Frame)
    (h : five_minute_frame_for result sym = some f) :
    ∃ m, f = Frame.topLongShortFrame m ∧ m.symbol = sym := by
  unfold five_minute_frame_for at h
  cases h1 : last_ok_for (fun d => d.symbol) result.top_account sym with
  | none => rw [h1] at h; simp at h
  | some a =>
    cases h2 : last_ok_for (fun d => d.symbol) result.top_position sym with
    | none => rw [h1, h2] at h; simp at h
    | some p =>
      cases h3 : last_ok_for (fun d => d.symbol) result.global_account sym with
      | none => rw [h1, h2, h3] at h; simp at h
      | some g =>
        rw [h1, h2, h3] at h
        dsimp only at h
        cases h4 : last_ok_for (fun d => d.symbol) result.open_interest_hist sym with
        | none =>
          rw [h4] at h
          dsimp only at h
          injection h with h
          exact ⟨_, h.symm, rfl⟩
        | some oh =>
          rw [h4] at h
          dsimp only at h
          injection h with h
          exact ⟨_, h.symm, rfl⟩

/-- The body emits for a symbol exactly when the account, position and
global lookups are all present; the hist lookup plays no part. -/
theorem five_minute_frame_isSome (result : FiveMinuteResult) (sym : String) :
    (five_minute_frame_for result sym).isSome = true ↔
      (last_ok_for (fun d => d.symbol) result.top_account sym).isSome = true
      ∧ (last_ok_for (fun d => d.symbol) result.top_position sym).isSome = true
      ∧ (last_ok_for (fun d => d.symbol) result.global_account sym).isSome = true := by
  cases h1 : last_ok_for (fun d => d.symbol) result.top_account sym <;>
    cases h2 : last_ok_for (fun d => d.symbol) result.top_position sym <;>
      cases h3 : last_ok_for (fun d => d.symbol) result.global_account sym <;>
        simp [five_minute_frame_for, h1, h2, h3]

theorem filtered_ratio_count_le_one (s : String) (g : String → Option Frame)
    (hg : ∀ sym f, g sym = some f → top_ratio_frame_for s f = true → sym = s) :
    ∀ l : List String, l.Nodup →
      ((l.filterMap g).filter (top_ratio_frame_for s)).length ≤ 1 := by
  intro l
  induction l with
  | nil => intro _; simp
  | cons a l ih =>
    intro hnd
    obtain ⟨ha, hnd2⟩ := List.nodup_cons.mp hnd
    rw [List.filterMap_cons]
    cases hga : g a with
    | none => exact ih hnd2
    | some f =>
      cases hpf : top_ratio_frame_for s f with
      | false =>
        rw [List.filter_cons_of_neg (by simp [hpf])]
        exact ih hnd2
      | true =>
        rw [List.filter_cons_of_pos (by simp [hpf])]
        have hrest : (l.filterMap g).filter (top_ratio_frame_for s) = [] := by
          apply List.filter_eq_nil_iff.mpr
          intro f2 hf2 hp2
          obtain ⟨sym, hsym, hgsym⟩ := List.mem_filterMap.mp hf2
          have hss : sym = s := hg sym f2 hgsym (by simpa using hp2)
          subst hss
          exact ha ((hg a f hga hpf) ▸ hsym)
        rw [hrest]
        simp

theorem fetch_ratio_metrics_timestamp (symbol : String) (ct : Int) (lk sk : String)
    (entries : List Json) (r : RatioMetricsData)
    (h : fetch_ratio_metrics symbol ct lk sk entries = .ok r) :
    r.timestamp = ct ∨ r.timestamp = ct + 1 := by
  unfold fetch_ratio_metrics at h
  split at h
  · simp at h
  · cases hfind : entries.find? (fun e => entry_matches ct e) with
    | none => rw [hfind] at h; simp at h
    | some entry =>
      rw [hfind] at h
      dsimp only at h
      have hmatch := List.find?_some hfind
      simp only [entry_matches, decide_eq_true_eq] at hmatch
      cases hl : parse_ratio_value entry lk with
      | none => rw [hl] at h; simp at h
      | some lv =>
        cases hs2 : parse_ratio_value entry sk with
        | none => rw [hl, hs2] at h; simp at h
        | some sv =>
          cases hr2 : parse_ratio_value entry "longShortRatio" with
          | none => rw [hl, hs2, hr2] at h; simp at h
          | some rv =>
            rw [hl, hs2, hr2] at h
            dsimp only at h
            injection h with h
            subst h
            rcases hmatch with hc | hc
            · left; dsimp only; rw [hc]; rfl
            · right; dsimp only; rw [hc]; rfl

theorem emits_ratio_iff (result : FiveMinuteResult) (s : String) :
    emits_ratio_for result s ↔
      s ∈ all_symbols result ∧ (five_minute_frame_for result s).isSome = true := by
  constructor
  · rintro ⟨m, hm, hsym⟩
    obtain ⟨sym, hsyml, hg⟩ := List.mem_filterMap.mp hm
    obtain ⟨m2, hfm, hm2sym⟩ := five_minute_frame_shape result sym _ hg
    injection hfm with hfm
    subst hfm
    have hss : sym = s := by rw [← hm2sym, hsym]
    subst hss
    exact ⟨hsyml, by rw [hg]; rfl⟩
  · rintro ⟨hs, hsome⟩
    obtain ⟨f, hf⟩ := Option.isSome_iff_exists.mp hsome
    obtain ⟨m, hfm, hmsym⟩ := five_minute_frame_shape result s f hf
    subst hfm
    exact ⟨m, List.mem_filterMap.mpr ⟨s, hs, hf⟩, hmsym⟩

/-- C5: a 5-minute tick emits at most one TopLongShortRatio frame per
symbol; a frame appears only when account, position and global results
are all present for its symbol; a successful ratio fetch is matched at
timestamp close_time or close_time + 1; and the open-interest-hist
results have no effect on whether a symbol's frame is emitted. -/
theorem C5_five_minute_tick (result : FiveMinuteResult) (s : String) :
    ((send_five_minute_messages result).filter (top_ratio_frame_for s)).length ≤ 1
    ∧ (∀ m : TopLongShortRatioMsg,
        Frame.topLongShortFrame m ∈ send_five_minute_messages result →
        (∃ d, Except.ok d ∈ result.top_account ∧ d.symbol = m.symbol)
        ∧ (∃ d, Except.ok d ∈ result.top_position ∧ d.symbol = m.symbol)
        ∧ (∃ d, Except.ok d ∈ result.global_account ∧ d.symbol = m.symbol))
    ∧ (∀ (symbol : String) (ct : Int) (lk sk : String) (entries : List Json)
        (r : RatioMetricsData),
        fetch_ratio_metrics symbol ct lk sk entries = .ok r →
        r.timestamp = ct ∨ r.timestamp = ct + 1)
    ∧ (emits_ratio_for result s ↔
        emits_ratio_for { result with open_interest_hist := [] } s) := by
  have hg : ∀ sym f, five_minute_frame_for result sym = some f →
      top_ratio_frame_for s f = true → sym = s := by
    intro sym f hgf hpf
    obtain ⟨m, hfm, hms⟩ := five_minute_frame_shape result sym f hgf
    subst hfm
    simp only [top_ratio_frame_for, decide_eq_true_eq] at hpf
    rw [← hms, hpf]
  refine ⟨?_, ?_, ?_, ?_⟩
  · exact filtered_ratio_count_le_one s (five_minute_frame_for result) hg
      (all_symbols result) (List.nodup_dedup _)
  · intro m hm
    obtain ⟨sym, hsyml, hgsym⟩ := List.mem_filterMap.mp hm
    obtain ⟨m2, hfm, hm2sym⟩ := five_minute_frame_shape result sym _ hgsym
    injection hfm with hfm
    subst hfm
    have hsome : (five_minute_frame_for result sym).isSome = true := by
      rw [hgsym]; rfl
    obtain ⟨hacc, hpos, hglo⟩ := (five_minute_frame_isSome result sym).mp hsome
    obtain ⟨a, haeq⟩ := Option.isSome_iff_exists.mp hacc
    obtain ⟨p, hpeq⟩ := Option.isSome_iff_exists.mp hpos
    obtain ⟨g2, hgeq⟩ := Option.isSome_iff_exists.mp hglo
    obtain ⟨hamem, hasym⟩ := last_ok_for_mem _ _ _ _ haeq
    obtain ⟨hpmem, hpsym⟩ := last_ok_for_mem _ _ _ _ hpeq
    obtain ⟨hgmem, hgsym2⟩ := last_ok_for_mem _ _ _ _ hgeq
    exact ⟨⟨a, hamem, by rw [hasym, hm2sym]⟩,
           ⟨p, hpmem, by rw [hpsym, hm2sym]⟩,
           ⟨g2, hgmem, by rw [hgsym2, hm2sym]⟩⟩
  · intro symbol ct lk sk entries r hfetch
    exact fetch_ratio_metrics_timestamp symbol ct lk sk entries r hfetch
  · rw [emits_ratio_iff result s,
       emits_ratio_iff { result with open_interest_hist := [] } s,
       five_minute_frame_isSome result s,
       five_minute_frame_isSome { result with open_interest_hist := [] } s]
    exact Iff.rfl

theorem C5_five_minute_tick_witness :
    ((send_five_minute_messages c5_full_result).filter
        (top_ratio_frame_for "BTCUSDT")).length ≤ 1
    ∧ Frame.topLongShortFrame c5_expected_msg ∈ send_five_minute_messages c5_full_result
    ∧ ((∃ d, Except.ok d ∈ c5_full_result.top_account ∧ d.symbol = c5_expected_msg.symbol)
       ∧ (∃ d, Except.ok d ∈ c5_full_result.top_position ∧
           d.symbol = c5_expected_msg.symbol)
       ∧ (∃ d, Except.ok d ∈ c5_full_result.global_account ∧
           d.symbol = c5_expected_msg.symbol))
    ∧ fetch_ratio_metrics "BTCUSDT" 1710000300000 "longAccount" "shortAccount"
        c5_entries = Except.ok c5_entry_data
    ∧ (c5_entry_data.timestamp = 1710000300000 ∨
        c5_entry_data.timestamp = 1710000300000 + 1) :=
  ⟨(C5_five_minute_tick c5_full_result "BTCUSDT").1,
   by decide,
   (C5_five_minute_tick c5_full_result "BTCUSDT").2.1 c5_expected_msg (by decide),
   by decide,
   (C5_five_minute_tick c5_full_result "BTCUSDT").2.2.1 "BTCUSDT" 1710000300000
     "longAccount" "shortAccount" c5_entries c5_entry_data (by decide)⟩

theorem ws_connect_aux_attempts_le (attempts : Nat → AttemptOutcome) :
    ∀ (fuel used slept : Nat),
      (ws_connect_aux attempts fuel used slept).attempts_used ≤ used + fuel := by
  intro fuel
  induction fuel with
  | zero => intro used slept; exact Nat.le_refl used
  | succ fuel ih =>
    intro used slept
    unfold ws_connect_aux
    cases attempts used with
    | connected b =>
      cases b <;> (dsimp only; omega)
    | failed e =>
      dsimp only
      by_cases hd : is_dns_error e
      · rw [if_pos hd]
        have := ih (used + 1) (slept + 1)
        omega
      · rw [if_neg hd]
        dsimp only
        omega

theorem ws_connect_aux_retries_dns (attempts : Nat → AttemptOutcome) :
    ∀ (fuel used slept i : Nat), used ≤ i →
      i + 1 < (ws_connect_aux attempts fuel used slept).attempts_used →
      ∃ e, attempts i = .failed e ∧ is_dns_error e = true := by
  intro fuel
  induction fuel with
  | zero =>
    intro used slept i hui hlt
    unfold ws_connect_aux at hlt
    dsimp only at hlt
    omega
  | succ fuel ih =>
    intro used slept i hui hlt
    unfold ws_connect_aux at hlt
    cases ha : attempts used with
    | connected b =>
      rw [ha] at hlt
      cases b <;> (dsimp only at hlt; omega)
    | failed e =>
      rw [ha] at hlt
      dsimp only at hlt
      by_cases hd : is_dns_error e
      · rw [if_pos hd] at hlt
        by_cases hiu : i = used
        · exact ⟨e, hiu ▸ ha, hd⟩
        · exact ih (used + 1) (slept + 1) i (by omega) hlt
      · rw [if_neg hd] at hlt
        dsimp only at hlt
        omega

theorem ws_connect_aux_fatal (attempts : Nat → AttemptOutcome) :
    ∀ (fuel used slept i : Nat) (e : WsError), used ≤ i → i < used + fuel →
      attempts i = .failed e → is_dns_error e = false →
      (∀ k, used ≤ k → k < i → ∃ e2, attempts k = .failed e2 ∧ is_dns_error e2 = true) →
      (ws_connect_aux attempts fuel used slept).result = .fatalConnect e
      ∧ (ws_connect_aux attempts fuel used slept).attempts_used = i + 1 := by
  intro fuel
  induction fuel with
  | zero =>
    intro used slept i e hui hlt
    exact absurd hlt (by omega)
  | succ fuel ih =>
    intro used slept i e hui hlt hat hdns hprev
    unfold ws_connect_aux
    by_cases hiu : i = used
    · subst hiu
      rw [hat]
      dsimp only
      rw [if_neg (by simp [hdns])]
      exact ⟨rfl, rfl⟩
    · obtain ⟨e2, hat2, hdns2⟩ := hprev used (Nat.le_refl used) (by omega)
      rw [hat2]
      dsimp only
      rw [if_pos hdns2]
      exact ih (used + 1) (slept + 1) i e (by omega) (by omega) hat hdns
        (fun k hk1 hk2 => hprev k (by omega) hk2)

theorem ws_connect_aux_sleeps (attempts : Nat → AttemptOutcome) :
    ∀ (fuel used slept : Nat),
      ((ws_connect_aux attempts fuel used slept).result = .exhausted →
        (ws_connect_aux attempts fuel used slept).sleeps = slept + fuel
        ∧ (ws_connect_aux attempts fuel used slept).attempts_used = used + fuel)
      ∧ ((ws_connect_aux attempts fuel used slept).result ≠ .exhausted →
        slept ≤ (ws_connect_aux attempts fuel used slept).sleeps
        ∧ (ws_connect_aux attempts fuel used slept).attempts_used =
            used + ((ws_connect_aux attempts fuel used slept).sleeps - slept) + 1) := by
  intro fuel
  induction fuel with
  | zero =>
    intro used slept
    exact ⟨fun _ => ⟨rfl, rfl⟩, fun hne => absurd rfl hne⟩
  | succ fuel ih =>
    intro used slept
    unfold ws_connect_aux
    cases attempts used with
    | connected b =>
      cases b <;> dsimp only <;>
        exact ⟨fun hex => by simp at hex, fun _ => ⟨Nat.le_refl slept, by omega⟩⟩
    | failed e =>
      dsimp only
      by_cases hd : is_dns_error e
      · rw [if_pos hd]
        have hih := ih (used + 1) (slept + 1)
        constructor
        · intro hex
          obtain ⟨hs, hu⟩ := hih.1 hex
          exact ⟨by omega, by omega⟩
        · intro hne
          obtain ⟨hs, hu⟩ := hih.2 hne
          exact ⟨by omega, by omega⟩
      · rw [if_neg hd]
        dsimp only
        exact ⟨fun hex => by simp at hex, fun _ => ⟨Nat.le_refl slept, by omega⟩⟩

/-- C8: the connect loop makes at most 5 attempts; every attempt that was
followed by another one failed with a retry-eligible (connection
refused/aborted/reset/not-connected io error or non-2xx HTTP) error; a
non-retryable connect failure returns fatally at once, with no further
attempt; exhaustion means 5 attempts with a 1-second sleep after each
retried failure, and otherwise exactly one sleep separates consecutive
attempts. -/
theorem C8_connect_retry_policy (attempts : Nat → AttemptOutcome) :
    (ws_connect attempts).attempts_used ≤ 5
    ∧ (∀ i, i + 1 < (ws_connect attempts).attempts_used →
        ∃ e, attempts i = .failed e ∧ is_dns_error e = true)
    ∧ (∀ (i : Nat) (e : WsError), i < 5 → attempts i = .failed e →
        is_dns_error e = false →
        (∀ k, k < i → ∃ e2, attempts k = .failed e2 ∧ is_dns_error e2 = true) →
        (ws_connect attempts).result = .fatalConnect e
        ∧ (ws_connect attempts).attempts_used = i + 1)
    ∧ ((ws_connect attempts).result = .exhausted →
        (ws_connect attempts).attempts_used = 5 ∧ (ws_connect attempts).sleeps = 5)
    ∧ ((ws_connect attempts).result ≠ .exhausted →
        (ws_connect attempts).sleeps + 1 = (ws_connect attempts).attempts_used) := by
  refine ⟨?_, ?_, ?_, ?_, ?_⟩
  · exact ws_connect_aux_attempts_le attempts 5 0 0
  · intro i hlt
    exact ws_connect_aux_retries_dns attempts 5 0 0 i (Nat.zero_le i) hlt
  · intro i e hi hat hdns hprev
    exact ws_connect_aux_fatal attempts 5 0 0 i e (Nat.zero_le i) (by omega) hat hdns
      (fun k _ hk2 => hprev k hk2)
  · intro hex
    obtain ⟨hs, hu⟩ := (ws_connect_aux_sleeps attempts 5 0 0).1 hex
    exact ⟨hu, hs⟩
  · intro hne
    obtain ⟨hs, hu⟩ := (ws_connect_aux_sleeps attempts 5 0 0).2 hne
    show (ws_connect_aux attempts 5 0 0).sleeps + 1 =
      (ws_connect_aux attempts 5 0 0).attempts_used
    omega

theorem C8_connect_retry_policy_witness :
    (ws_connect c8_fatal_attempts).attempts_used ≤ 5
    ∧ c8_fatal_attempts 0 = .failed WsError.otherErr
    ∧ is_dns_error WsError.otherErr = false
    ∧ (ws_connect c8_fatal_attempts).result = .fatalConnect WsError.otherErr
    ∧ (ws_connect c8_fatal_attempts).attempts_used = 1 :=
  ⟨(C8_connect_retry_policy c8_fatal_attempts).1, rfl, rfl,
   ((C8_connect_retry_policy c8_fatal_attempts).2.2.1 0 WsError.otherErr
      (by decide) rfl rfl (fun k hk => absurd hk (Nat.not_lt_zero k))).1,
   ((C8_connect_retry_policy c8_fatal_attempts).2.2.1 0 WsError.otherErr
      (by decide) rfl rfl (fun k hk => absurd hk (Nat.not_lt_zero k))).2⟩
